import Mathlib

/-!
Verification of the Scalar command-line interface (`scalar.c`).

This file gives a shallow embedding of the claim-relevant parts of the
source: pure functions become Lean functions, and the effectful command
implementations become explicit functions over "world" records whose
fields are oracles for the outcomes of external calls (subprocess exit
codes, `chdir` results, JSON documents returned by the `gvfs-helper`,
configuration-store writes).  Each embedded definition is annotated with
the source function and line range it models.
-/

/-! ### Character and string helpers (C `tolower`, `strcasecmp`, prefixes) -/

/-- ASCII lowercasing of one character, as C `tolower` behaves on the
ASCII range (used by `strbuf_tolower` and `strcasecmp`). -/
def asciiLower (c : Char) : Char :=
  if 'A' ≤ c ∧ c ≤ 'Z' then Char.ofNat (c.toNat + 32) else c

/-- Lowercase a whole string byte-wise, as `strbuf_tolower` does. -/
def strLower (s : String) : String := String.mk (s.data.map asciiLower)

/-- Case-insensitive string equality, as C `!strcasecmp(a, b)`. -/
def strcaseEq (a b : String) : Bool := strLower a == strLower b

/-- Drop a prefix from a character list, as C `skip_prefix`:
returns the remainder when `p` is a prefix of `s`. -/
def stripPrefixCh : List Char → List Char → Option (List Char)
  | [], s => some s
  | _ :: _, [] => none
  | p :: ps, c :: cs => if c = p then stripPrefixCh ps cs else none

/-- Drop a suffix from a character list, as C `strip_suffix_mem`:
returns the front part when `suf` is a suffix of `s`. -/
def stripSuffixCh (s suf : List Char) : Option (List Char) :=
  match stripPrefixCh suf.reverse s.reverse with
  | some r => some r.reverse
  | none => none

/-- Case-insensitive prefix skip on strings, as C `skip_iprefix`:
returns the remainder after the prefix when the prefix matches
case-insensitively. -/
def skip_icase_pre (pre s : String) : Option String :=
  if (s.data.take pre.data.length).map asciiLower = pre.data.map asciiLower then
    some (String.mk (s.data.drop pre.data.length))
  else none

/-- C `isspace` on the default locale (the characters `strbuf_trim` removes). -/
def isSpaceCh (c : Char) : Bool :=
  c = ' ' || c = '\t' || c = '\n' || c = '\r' || c = '\x0b' || c = '\x0c'

/-- Trim whitespace from both ends of a character list, as `strbuf_trim`. -/
def trimCh (cs : List Char) : List Char :=
  ((cs.dropWhile isSpaceCh).reverse.dropWhile isSpaceCh).reverse

/-! ### Hash-algorithm selection (`get_cache_key`, scalar.c lines 545-564) -/

/-- The process-global hash-algorithm environment of the git library:
the registered algorithm array `hash_algos` (by name) and the
repository's current algorithm `the_hash_algo` (by name).  The library
internals are external collaborators; only the names matter here. -/
structure HashAlgoState where
  hash_algos : List String
  the_hash_algo : String
  deriving DecidableEq

/-- Lookup of a registered hash algorithm by name (the external git
library function `hash_algo_by_name`): the index of the first entry of
`hash_algos` with that exact name, or `-1` when absent. -/
def hash_algo_by_name (s : HashAlgoState) (name : String) : Int :=
  match s.hash_algos.indexOf? name with
  | some i => (i : Int)
  | none => -1

/-- The algorithm `get_cache_key` hashes with (scalar.c lines 547-549):
`hash_algo_by_name("sha1")`, falling back to `the_hash_algo` when that
lookup fails (`hash_algo_index < 0`). -/
def scalar_hash_algo (s : HashAlgoState) : String :=
  let hash_algo_index := hash_algo_by_name s "sha1"
  if hash_algo_index < 0 then s.the_hash_algo
  else s.hash_algos.getD hash_algo_index.toNat s.the_hash_algo

/-- Output size in bits of the named hash algorithms, to give "strength"
a concrete meaning for the spec's phrase "strongest-available hash
algorithm". -/
def specHashStrength (name : String) : Nat :=
  if name = "sha256" then 256 else if name = "sha1" then 160 else 0

/-- Modelled from the spec's words, for comparison with
`scalar_hash_algo`: the strongest-available algorithm among the
registered ones (first entry of maximal strength). -/
def strongest_available (s : HashAlgoState) : Option String :=
  s.hash_algos.foldl
    (fun best a =>
      match best with
      | none => some a
      | some b => if specHashStrength b < specHashStrength a then some a else some b)
    none

/-! ### Cache-key derivation (`get_cache_key`, scalar.c lines 516-568) -/

/-- C `can_url_support_gvfs` (scalar.c lines 412-417): the GVFS protocol
is only supported via `https://`, or `http://` when the test environment
variable `GIT_TEST_ALLOW_GVFS_VIA_HTTP` is set. -/
def can_url_support_gvfs (url : String) (allowHttp : Bool) : Bool :=
  "https://".data.isPrefixOf url.data ||
    (allowHttp && "http://".data.isPrefixOf url.data)

/-- Outcome of the `gvfs-helper endpoint vsts/info` query used by
`get_cache_key`:
`none` = `pipe_command` failed; `some none` = the pipe succeeded but
`iterate_json` reported a parse error (only a warning is printed and no
`id_` key is produced); `some (some i)` = parse succeeded, where `i` is
the `.repository.id` string when one was found. -/
abbrev VstsInfoResult := Option (Option (Option String))

/-- The `id_`-key branch of `get_cache_key` (scalar.c lines 526-543):
the remote identity is consulted only when `SCALAR_TEST_SKIP_VSTS_INFO`
is unset and the URL qualifies for GVFS, and produces a key only when the
pipe and the JSON parse succeed and a `.repository.id` is present. -/
def vsts_identity (skipVsts allowHttp : Bool) (url : String)
    (vsts : VstsInfoResult) : Option String :=
  if !skipVsts && can_url_support_gvfs url allowHttp then
    match vsts with
    | some (some (some id)) => some ("id_" ++ id)
    | _ => none
  else none

/-- C `get_cache_key` (scalar.c lines 516-568).  The cryptographic
digest is a black box per the specification: `hexdigest algo input` is
the hex digest of `input` under algorithm `algo`
(`hash_to_hex_algop` of the `init_fn`/`update_fn`/`final_fn` run over
the bytes of `input`). -/
def get_cache_key (skipVsts allowHttp : Bool) (url : String)
    (vsts : VstsInfoResult) (hs : HashAlgoState)
    (hexdigest : String → String → String) : String :=
  match vsts_identity skipVsts allowHttp url vsts with
  | some key => key
  | none => "url_" ++ hexdigest (scalar_hash_algo hs) (strLower url)

/-! ### Streaming-JSON token matching (`json-parser` callbacks,
scalar.c lines 361-474) -/

/-- Type tags the json-parser iterator reports for primitive values. -/
inductive JType where
  | str
  | boolTrue
  | boolFalse
  | num
  | nul
  deriving DecidableEq

/-- One event of the depth-first token stream `iterate_json` feeds to
its callback: the value's type tag, its full dotted/bracketed key path,
and its string value (meaningful for `.str` tokens). -/
structure JToken where
  type : JType
  key : String
  value : String
  deriving DecidableEq

/-- A parsed helper response: `none` when `iterate_json` reports a parse
error (returns a negative value), `some ts` when the document is
well-formed with token stream `ts`. -/
abbrev JsonDoc := Option (List JToken)

/-- C `strtol` base 10 on a character list: skip leading whitespace, an
optional sign, then digits.  `none` when no digit was consumed (the
`p != q` check in the callers fails); otherwise the value and the rest. -/
def strtolCh (cs : List Char) : Option (Int × List Char) :=
  let cs1 := cs.dropWhile isSpaceCh
  let digits : List Char → Option (Nat × List Char) := fun l =>
    let ds := l.takeWhile Char.isDigit
    if ds.isEmpty then none
    else some (ds.foldl (fun n c => 10 * n + (c.toNat - 48)) 0, l.dropWhile Char.isDigit)
  match cs1 with
  | '-' :: rest => (digits rest).map fun p => (-(p.1 : Int), p.2)
  | '+' :: rest => (digits rest).map fun p => ((p.1 : Int), p.2)
  | _ => (digits cs1).map fun p => ((p.1 : Int), p.2)

/-- The match performed by the callback `get_cache_server_index`
(scalar.c lines 377-392): a `JSON_TRUE` token whose key is
(case-insensitively) `.CacheServers[<l>].GlobalDefault` with `l >= 0`;
returns that `l`. -/
def gd_index_match (t : JToken) : Option Int :=
  if t.type = .boolTrue then
    match skip_icase_pre ".CacheServers[" t.key with
    | some p =>
      match strtolCh p.toList with
      | some (l, q) =>
        if l ≥ 0 ∧ strcaseEq (String.mk q) "].GlobalDefault" then some l else none
      | none => none
    | none => none
  else none

/-- Running `iterate_json` with `get_cache_server_index` over a
well-formed stream: the callback stores the first matching index into
`l` and aborts (returns 1); `l` was initialized to `0` and keeps that
value when no token matches. -/
def get_cache_server_index_run (ts : List JToken) : Int :=
  match ts.findSome? gd_index_match with
  | some l => l
  | none => 0

/-- The match performed by the callback `get_cache_server_url`
(scalar.c lines 399-410): the first `JSON_STRING` token whose key
equals `key` case-insensitively; yields its string value. -/
def get_cache_server_url_run (ts : List JToken) (key : String) : Option String :=
  ts.findSome? fun t =>
    if t.type = .str ∧ strcaseEq key t.key then some t.value else none

/-- The lines printed by the callback `list_cache_server_urls`
(scalar.c lines 361-374): one `#<l>: <url>` line per `JSON_STRING`
token with key `.CacheServers[<l>].Url` (`l >= 0`), in document order;
this callback never aborts the iteration. -/
def list_cache_server_urls_run (ts : List JToken) : List String :=
  ts.filterMap fun t =>
    if t.type = .str then
      match skip_icase_pre ".CacheServers[" t.key with
      | some p =>
        match strtolCh p.toList with
        | some (l, q) =>
          if l ≥ 0 ∧ strcaseEq (String.mk q) "].Url" then
            some ("#" ++ toString l ++ ": " ++ t.value)
          else none
        | none => none
      | none => none
    else none

/-- C `supports_gvfs_protocol` (scalar.c lines 425-474).
`pipe` is the outcome of `pipe_command` running
`gvfs-helper --remote <url> config`: `none` = the pipe failed,
`some doc` = it succeeded with document `doc`.  `listMode` is true when
the caller passed `cache_server_url == NULL` (the `--list` operation).
Result: the C return value, the `*cache_server_url` out-parameter, and
the printed listing lines.  Note the error paths return `error(...)`,
which is `-1`. -/
def supports_gvfs_protocol (url : String) (allowHttp : Bool)
    (pipe : Option JsonDoc) (listMode : Bool) :
    Int × Option String × List String :=
  if !can_url_support_gvfs url allowHttp then (0, none, [])
  else
    match pipe with
    | some doc =>
      match doc with
      | none => (-1, none, [])
      | some ts =>
        if listMode then (0, none, list_cache_server_urls_run ts)
        else
          let l := get_cache_server_index_run ts
          let key := ".CacheServers[" ++ toString l ++ "].Url"
          (1, get_cache_server_url_run ts key, [])
    | none =>
      if listMode then (-1, none, []) else (0, none, [])

/-! ### Remote default branch (`remote_default_branch`, scalar.c
lines 570-619) -/

/-- Parsing of one `ls-remote --symref` output line (scalar.c lines
580-602).  `none`: the line matches neither `ref: ` prefix nor `\tHEAD`
suffix and is skipped.  `some (some b)`: the symref target is
`refs/heads/<b>`, branch `b` is returned.  `some none`: the line matched
but the target is not under `refs/heads/` — the function errors out
("remote HEAD is not a branch") and returns NULL immediately.
In the source, `p` is the line after the 5-character `ref: ` prefix and
`eol` the end after stripping the `\tHEAD` suffix, so the target region
is the suffix-stripped line minus its first 5 characters. -/
def parse_head_line (line : List Char) : Option (Option (List Char)) :=
  match stripPrefixCh "ref: ".toList line, stripSuffixCh line "\tHEAD".toList with
  | some _, some stripped =>
    match stripPrefixCh "refs/heads/".toList (stripped.drop 5) with
    | some b => some (some b)
    | none => some none
  | _, _ => none

/-- Split a buffer into `\n`-separated segments, as the
`strchrnul`-based loop of `remote_default_branch` walks them. -/
def splitLinesCh (cs : List Char) : List (List Char) :=
  cs.foldr
    (fun c acc =>
      match acc with
      | [] => if c = '\n' then [[], []] else [[c]]
      | h :: t => if c = '\n' then [] :: h :: t else (c :: h) :: t)
    [[]]

/-- The line loop of `remote_default_branch`: the first line that parses
decides the outcome; when no line matches the loop falls through. -/
def scan_head_lines (ls : List (List Char)) : Option (Option (List Char)) :=
  ls.findSome? parse_head_line

/-- C `remote_default_branch` (scalar.c lines 570-619).
`lsRemoteOut` is the captured output of
`git ls-remote --symref <url> HEAD` (`none` = `pipe_command` failed);
`symref` is the captured output of `git symbolic-ref --short HEAD`
(`none` = that command failed).  When the remote query fails or yields
no matching line, the function warns and falls back to the local
symbolic HEAD (trimmed); when the remote HEAD is not a branch it errors
out immediately; when the fallback also fails it returns NULL. -/
def remote_default_branch (lsRemoteOut : Option (List Char))
    (symref : Option (List Char)) : Option (List Char) :=
  let fromRemote : Option (Option (List Char)) :=
    match lsRemoteOut with
    | some out => scan_head_lines (splitLinesCh out)
    | none => none
  match fromRemote with
  | some r => r
  | none =>
    match symref with
    | some s => some (trimCh s)
    | none => none

/-! ### Configuration reconciliation (`set_scalar_config` /
`set_recommended_config`, scalar.c lines 128-248)

The configuration store is modelled as a map from key to current value;
`git_config_set_gently` with a value becomes an update, with NULL a
removal.  Writes are modelled as succeeding (the claims are about the
resulting configuration; a failed write aborts the C function early). -/

/-- The configuration store: current value per key. -/
abbrev Config := String → Option String

/-- `git_config_set_gently(key, value)` with a non-NULL value. -/
def cfgSet (s : Config) (k v : String) : Config :=
  fun k' => if k' = k then some v else s k'

/-- `git_config_set_gently(key, NULL)`: remove the key. -/
def cfgUnset (s : Config) (k : String) : Config :=
  fun k' => if k' = k then none else s k'

/-- C `struct scalar_config` (scalar.c lines 128-132). -/
structure ScalarCfgEntry where
  key : String
  value : String
  overwrite_on_reconfigure : Bool
  deriving DecidableEq

/-- C `set_scalar_config` (scalar.c lines 134-150): write the desired
value when reconfiguring an overwrite-on-reconfigure entry, or when the
key has no current value; otherwise leave the key untouched. -/
def set_scalar_config (c : ScalarCfgEntry) (reconfigure : Bool) (s : Config) : Config :=
  if (reconfigure && c.overwrite_on_reconfigure) || (s c.key).isNone then
    cfgSet s c.key c.value
  else s

/-- The `config[]` table of `set_recommended_config` (scalar.c lines
160-195), on a non-Windows build (the `http.sslBackend` entry is inside
`#ifdef WIN32`).  Entries up to `fetch.writeCommitGraph` carry
`overwrite_on_reconfigure = 1`; the rest are optional. -/
def scalar_config_table : List ScalarCfgEntry :=
  [⟨"am.keepCR", "true", true⟩,
   ⟨"core.FSCache", "true", true⟩,
   ⟨"core.multiPackIndex", "true", true⟩,
   ⟨"core.preloadIndex", "true", true⟩,
   ⟨"core.untrackedCache", "true", true⟩,
   ⟨"core.logAllRefUpdates", "true", true⟩,
   ⟨"credential.https://dev.azure.com.useHttpPath", "true", true⟩,
   ⟨"credential.validate", "false", true⟩,
   ⟨"gc.auto", "0", true⟩,
   ⟨"gui.GCWarning", "false", true⟩,
   ⟨"index.skipHash", "false", true⟩,
   ⟨"index.threads", "true", true⟩,
   ⟨"index.version", "4", true⟩,
   ⟨"merge.stat", "false", true⟩,
   ⟨"merge.renames", "true", true⟩,
   ⟨"pack.useBitmaps", "false", true⟩,
   ⟨"pack.useSparse", "true", true⟩,
   ⟨"receive.autoGC", "false", true⟩,
   ⟨"feature.manyFiles", "false", true⟩,
   ⟨"feature.experimental", "false", true⟩,
   ⟨"fetch.unpackLimit", "1", true⟩,
   ⟨"fetch.writeCommitGraph", "false", true⟩,
   ⟨"status.aheadBehind", "false", false⟩,
   ⟨"commitGraph.generationVersion", "1", false⟩,
   ⟨"core.autoCRLF", "false", false⟩,
   ⟨"core.safeCRLF", "false", false⟩,
   ⟨"fetch.showForcedUpdates", "false", false⟩,
   ⟨"core.configWriteLockTimeoutMS", "150", false⟩]

/-- The `for` loop of `set_recommended_config` over the table
(scalar.c lines 216-220). -/
def apply_config_table : List ScalarCfgEntry → Bool → Config → Config
  | [], _, s => s
  | c :: cs, b, s => apply_config_table cs b (set_scalar_config c b s)

/-- The `core.usebuiltinfsmonitor` migration step of
`set_recommended_config` (scalar.c lines 199-214): when the deprecated
key is present, copy its value to `core.fsmonitor` if that key is
absent, then remove the deprecated key. -/
def fsmonitor_migration (s : Config) : Config :=
  match s "core.usebuiltinfsmonitor" with
  | none => s
  | some v =>
    let s1 := if (s "core.fsmonitor").isNone then cfgSet s "core.fsmonitor" v else s
    cfgUnset s1 "core.usebuiltinfsmonitor"

/-- The fsmonitor step of `set_recommended_config` (scalar.c lines
222-227): when fsmonitor is supported, apply the entry
`{ "core.fsmonitor", "true" }` (without overwrite-on-reconfigure). -/
def apply_fsmonitor_config (support reconfigure : Bool) (s : Config) : Config :=
  if support then set_scalar_config ⟨"core.fsmonitor", "true", false⟩ reconfigure s
  else s

/-- The `log.excludeDecoration` step of `set_recommended_config`
(scalar.c lines 229-245): when the multi-valued key is entirely absent,
append the single default pattern `refs/prefetch/*`. -/
def apply_exclude_decoration (s : Config) : Config :=
  if (s "log.excludeDecoration").isNone then
    cfgSet s "log.excludeDecoration" "refs/prefetch/*"
  else s

/-- C `set_recommended_config` (scalar.c lines 158-248): migration,
table pass, conditional fsmonitor entry, multi-valued decoration key. -/
def set_recommended_config (reconfigure support : Bool) (s : Config) : Config :=
  apply_exclude_decoration
    (apply_fsmonitor_config support reconfigure
      (apply_config_table scalar_config_table reconfigure
        (fsmonitor_migration s)))

/-! ### Fleet reconfiguration (`cmd_reconfigure --all` /
`remove_deleted_enlistment`, scalar.c lines 999-1122) -/

/-- Outcome of `chdir(dir)` for one registered enlistment. -/
inductive ChdirRes where
  | ok
  | failENOENT
  | failOther
  deriving DecidableEq

/-- Outcome of `discover_git_directory_reason` for one enlistment. -/
inductive DiscoverRes where
  | invalidOwnership
  | invalidGitfile
  | invalidFormat
  | discovered
  | notFound
  deriving DecidableEq

/-- Oracles for one registered enlistment processed by
`cmd_reconfigure --all`: the registered path and the outcomes of the
external calls the loop body makes for it.  `run_git` returns the
subprocess exit status, negative only when spawning failed. -/
structure EnlistmentWorld where
  dir : String
  chdirRes : ChdirRes
  unsetScalarRepoRes : Int
  unsetMaintenanceRes : Int
  discover : DiscoverRes
  setRecommendedRes : Int
  toggleMaintenanceRes : Int
  deriving DecidableEq

/-- C `remove_deleted_enlistment` (scalar.c lines 999-1015): unset the
`scalar.repo` and `maintenance.repo` records; `-1` when either
`run_git` call itself fails (returns a negative value). -/
def remove_deleted_enlistment (w : EnlistmentWorld) : Int :=
  if w.unsetScalarRepoRes < 0 ∨ w.unsetMaintenanceRes < 0 then -1 else 0

/-- What the loop body of `cmd_reconfigure --all` did for one item. -/
structure ItemResult where
  succeeded : Bool
  removedStale : Bool
  warnedUnregister : Bool
  deriving DecidableEq

/-- One iteration of the `cmd_reconfigure --all` loop (scalar.c lines
1049-1115).  A failing `chdir` with `ENOENT` removes the stale records
and counts as handled when the removal succeeds; any other failure
warns and falls to `loop_end`; after a successful `chdir`, repository
discovery failures other than "not found" jump to `loop_end`, while
`discovered` (and, after the warning, "not found") continue into
`set_recommended_config(1)` and `toggle_maintenance(1)`, either of
which marks the item as succeeded when its result is `>= 0`.  An item
that did not succeed makes the loop print the manual unregistration
command. -/
def reconfigure_item (w : EnlistmentWorld) : ItemResult :=
  match w.chdirRes with
  | .failOther => ⟨false, false, true⟩
  | .failENOENT =>
    if remove_deleted_enlistment w = 0 then ⟨true, true, false⟩
    else ⟨false, false, true⟩
  | .ok =>
    match w.discover with
    | .invalidOwnership => ⟨false, false, true⟩
    | .invalidGitfile => ⟨false, false, true⟩
    | .invalidFormat => ⟨false, false, true⟩
    | d =>
      let succ0 := d = DiscoverRes.discovered
      let succ1 := succ0 || decide (w.setRecommendedRes ≥ 0)
      let succ2 := succ1 || decide (w.toggleMaintenanceRes ≥ 0)
      ⟨succ2, false, !succ2⟩

/-- The `--all` branch of `cmd_reconfigure` (scalar.c lines 1049-1121):
every registered enlistment is processed in order (`goto loop_end`
never leaves the loop), and the aggregate `res` is `-1` as soon as any
item did not succeed, else `0`. -/
def cmd_reconfigure_all (ws : List EnlistmentWorld) : Int × List ItemResult :=
  let results := ws.map reconfigure_item
  (if results.any (fun r => !r.succeeded) then -1 else 0, results)

/-! ### Clone orchestration (`cmd_clone`, scalar.c lines 703-930)

`cmd_clone` is embedded as a function over a world of oracles for its
external calls, producing an outcome and a trace of the calls it
issued, split into the phases of the source's linear control flow:
setup (argument-derived paths, `git init`, the cache-root nesting
check), configuration (branch discovery, remote configuration, GVFS
negotiation, sparse checkout, recommended config), the fetch/fallback
block (lines 887-907), and the finish (branch tracking, checkout,
registration). -/

/-- One external call issued by `cmd_clone`. -/
inductive CloneEv where
  | runGit (args : List String) (res : Int)
  | setConfig (arg : String) (ok : Bool)
  | chdirTo (path : String) (ok : Bool)
  | removeDir (path : String) (ok : Bool)
  | negotiated (ret : Int) (url : Option String)
  | initSharedCache (ok : Bool)
  | setRecommended (ok : Bool)
  | registerDir (res : Int)
  deriving DecidableEq

/-- Outcome of `cmd_clone`: `die(...)` aborts the process, otherwise
the function returns an exit code. -/
inductive CloneOutcome where
  | died (msg : String)
  | ret (code : Int)
  deriving DecidableEq

/-- Oracles for `cmd_clone`'s external calls.  `runGitRes args occ` is
the exit status of the `occ`-th invocation of `run_git` with argument
vector `args` (the two fetch invocations share their argument vector);
`setConfigOk` is keyed by the formatted `<key>=<value>` (or bare
`<key>` for an unset) argument of `set_config`. -/
structure CloneWorld where
  runGitRes : List String → Nat → Int
  setConfigOk : String → Bool
  chdirOk : String → Bool
  isDirectory : String → Bool
  ensureAbs : String → String
  defaultCacheRoot : String → Option String
  dirInsideOf : String → String → Bool
  removeDirOk : String → Bool
  remoteDefaultBranch : Option String
  repoDefaultBranchName : String
  allowHttpEnv : Bool
  gvfsConfigPipe : Option JsonDoc
  initSharedCacheOk : Bool
  setRecommendedOk : Bool
  isatty2 : Bool
  registerDirRes : Int

/-- The parsed command-line options of `scalar clone`
(scalar.c lines 705-735). -/
structure CloneOpts where
  url : String
  enlistmentArg : Option String
  branch : Option String
  fullClone : Bool
  singleBranch : Bool
  src : Bool
  cacheServerUrl : Option String
  localCachePath : Option String

/-- Deriving the enlistment name from the URL when no second argument
was given (scalar.c lines 747-761): strip trailing directory
separators, strip a `.git` suffix, and take the segment after the last
separator; `die` when there is no separator. -/
def deriveEnlistment (url : String) : Option String :=
  let cs := (url.toList.reverse.dropWhile (· = '/')).reverse
  let cs := match stripSuffixCh cs ".git".toList with
    | some front => front
    | none => cs
  if cs.contains '/' then
    some (String.mk (cs.reverse.takeWhile (· ≠ '/')).reverse)
  else none

/-- Argument vector of the `git init` invocation (scalar.c line 796). -/
def cloneInitArgs (branchName dir : String) : List String :=
  ["-c", "init.defaultBranch=" ++ branchName, "init", "--", dir]

/-- Argument vector of the fetch invocations (scalar.c lines 887-905). -/
def fetchArgs (showProgress : Bool) : List String :=
  ["fetch", "--quiet", if showProgress then "--progress" else "--no-progress",
   "origin"]

/-- Argument vector of the sparse-checkout invocation (line 881). -/
def sparseArgs : List String := ["sparse-checkout", "init", "--cone"]

/-- Count of fetch invocations recorded in a trace. -/
def fetchCount (tr : List CloneEv) : Nat :=
  (tr.filter fun e =>
    match e with
    | .runGit args _ => args.head? = some "fetch"
    | _ => false).length

/-- Values carried from the setup phase of `cmd_clone` into the rest. -/
structure CloneSetup where
  enlistment : String
  dir : String
  localCacheRoot : String
  deriving DecidableEq

/-- Values carried into the fetch phase of `cmd_clone`. -/
structure CloneCtx where
  branch : String
  gvfs : Bool
  deriving DecidableEq

/-- The clone-side acceleration decision (scalar.c lines 848-849):
`gvfs_protocol = cache_server_url || supports_gvfs_protocol(...)` —
a C truth test, so any nonzero return of `supports_gvfs_protocol`
(including the `-1` of its error paths) selects the GVFS path; the
helper is not invoked at all when `--cache-server-url` was given. -/
def clone_gvfs_decision (cacheServerUrl : Option String) (negotiateRet : Int) : Bool :=
  cacheServerUrl.isSome || negotiateRet ≠ 0

/-- Setup phase of `cmd_clone` (scalar.c lines 744-822): enlistment
name, existing-directory check, worktree directory, local cache root,
`git init`, `chdir`, and the cache-root nesting guard, which removes
the half-created enlistment and dies. -/
def cmd_clone_setup (w : CloneWorld) (o : CloneOpts) :
    (CloneOutcome ⊕ CloneSetup) × List CloneEv :=
  let ename? := match o.enlistmentArg with
    | some e => some e
    | none => deriveEnlistment o.url
  match ename? with
  | none => (.inl (.died "cannot deduce worktree name"), [])
  | some ename =>
    if w.isDirectory ename then (.inl (.died "directory exists already"), [])
    else
      let enlistment := w.ensureAbs ename
      let dir := if o.src then enlistment ++ "/src" else enlistment
      let lcr? := match o.localCachePath with
        | none => w.defaultCacheRoot enlistment
        | some p => some (w.ensureAbs p)
      match lcr? with
      | none => (.inl (.died "could not determine local cache root"), [])
      | some lcr =>
        let branchName := match o.branch with
          | some b => b
          | none => w.repoDefaultBranchName
        let initA := cloneInitArgs branchName dir
        let r0 := w.runGitRes initA 0
        let tr := [CloneEv.runGit initA r0]
        if r0 ≠ 0 then (.inl (.ret r0), tr)
        else
          let cok := w.chdirOk dir
          let tr := tr ++ [CloneEv.chdirTo dir cok]
          if !cok then (.inl (.ret (-1)), tr)
          else if w.dirInsideOf lcr dir then
            if !w.chdirOk "../.." then
              (.inl (.died "local-cache-path inside src; could not remove"), tr)
            else
              let rok := w.removeDirOk enlistment
              let tr := tr ++ [CloneEv.removeDir enlistment rok]
              if rok then (.inl (.died "local-cache-path inside src"), tr)
              else (.inl (.died "local-cache-path inside src; could not remove"), tr)
          else (.inr ⟨enlistment, dir, lcr⟩, tr)

/-- Configuration phase of `cmd_clone` (scalar.c lines 829-885): remote
default branch, remote configuration, credential flag, GVFS negotiation
and the accelerated-vs-partial-clone branch, sparse checkout, and the
first-time recommended configuration. -/
def cmd_clone_config (w : CloneWorld) (o : CloneOpts) :
    (CloneOutcome ⊕ CloneCtx) × List CloneEv :=
  let branch? := match o.branch with
    | some b => some b
    | none => w.remoteDefaultBranch
  match branch? with
  | none => (.inl (.ret (-1)), [])
  | some branch =>
    let a1 := "remote.origin.url=" ++ o.url
    let ok1 := w.setConfigOk a1
    let tr := [CloneEv.setConfig a1 ok1]
    if !ok1 then (.inl (.ret (-1)), tr)
    else
      let rs := if o.singleBranch then branch else "*"
      let a2 := "remote.origin.fetch=+refs/heads/" ++ rs ++ ":refs/remotes/origin/" ++ rs
      let ok2 := w.setConfigOk a2
      let tr := tr ++ [CloneEv.setConfig a2 ok2]
      if !ok2 then (.inl (.ret (-1)), tr)
      else
        let a3 := "credential.https://dev.azure.com.useHttpPath=true"
        let ok3 := w.setConfigOk a3
        let tr := tr ++ [CloneEv.setConfig a3 ok3]
        if !ok3 then (.inl (.ret (-1)), tr)
        else
          let neg? : Option (Int × Option String) :=
            if o.cacheServerUrl.isSome then none
            else
              let r := supports_gvfs_protocol o.url w.allowHttpEnv w.gvfsConfigPipe false
              some (r.1, r.2.1)
          let negRet := match neg? with
            | some r => r.1
            | none => 0
          let defaultUrl := match neg? with
            | some r => r.2
            | none => none
          let tr := tr ++ (match neg? with
            | some r => [CloneEv.negotiated r.1 r.2]
            | none => [])
          let gvfs := clone_gvfs_decision o.cacheServerUrl negRet
          let afterBranch : (CloneOutcome ⊕ Unit) × List CloneEv :=
            if gvfs then
              let iok := w.initSharedCacheOk
              let tr2 := [CloneEv.initSharedCache iok]
              if !iok then (.inl (.ret (-1)), tr2)
              else
                let csu := match o.cacheServerUrl with
                  | some u => some u
                  | none => defaultUrl
                let g1 := "core.useGVFSHelper=true"
                let g1ok := w.setConfigOk g1
                let tr2 := tr2 ++ [CloneEv.setConfig g1 g1ok]
                if !g1ok then (.inl (.ret (-1)), tr2)
                else
                  let g2 := "core.gvfs=150"
                  let g2ok := w.setConfigOk g2
                  let tr2 := tr2 ++ [CloneEv.setConfig g2 g2ok]
                  if !g2ok then (.inl (.ret (-1)), tr2)
                  else
                    let g3 := "http.version=HTTP/1.1"
                    let g3ok := w.setConfigOk g3
                    let tr2 := tr2 ++ [CloneEv.setConfig g3 g3ok]
                    if !g3ok then (.inl (.ret (-1)), tr2)
                    else
                      match csu with
                      | some u =>
                        let g4 := "gvfs.cache-server=" ++ u
                        let g4ok := w.setConfigOk g4
                        let tr2 := tr2 ++ [CloneEv.setConfig g4 g4ok]
                        if !g4ok then (.inl (.ret (-1)), tr2)
                        else (.inr (), tr2)
                      | none => (.inr (), tr2)
            else
              let p1 := "core.useGVFSHelper=false"
              let p1ok := w.setConfigOk p1
              let tr2 := [CloneEv.setConfig p1 p1ok]
              if !p1ok then (.inl (.ret (-1)), tr2)
              else
                let p2 := "remote.origin.promisor=true"
                let p2ok := w.setConfigOk p2
                let tr2 := tr2 ++ [CloneEv.setConfig p2 p2ok]
                if !p2ok then (.inl (.ret (-1)), tr2)
                else
                  let p3 := "remote.origin.partialCloneFilter=blob:none"
                  let p3ok := w.setConfigOk p3
                  let tr2 := tr2 ++ [CloneEv.setConfig p3 p3ok]
                  if !p3ok then (.inl (.ret (-1)), tr2)
                  else (.inr (), tr2)
          match afterBranch with
          | (.inl out, tr2) => (.inl out, tr ++ tr2)
          | (.inr _, tr2) =>
            let tr := tr ++ tr2
            if !o.fullClone then
              let sres := w.runGitRes sparseArgs 0
              let tr := tr ++ [CloneEv.runGit sparseArgs sres]
              if sres ≠ 0 then (.inl (.ret sres), tr)
              else
                let rok := w.setRecommendedOk
                let tr := tr ++ [CloneEv.setRecommended rok]
                if !rok then (.inl (.ret (-1)), tr)
                else (.inr ⟨branch, gvfs⟩, tr)
            else
              let rok := w.setRecommendedOk
              let tr := tr ++ [CloneEv.setRecommended rok]
              if !rok then (.inl (.ret (-1)), tr)
              else (.inr ⟨branch, gvfs⟩, tr)

/-- The fetch/fallback block of `cmd_clone` (scalar.c lines 887-907):
when the first fetch fails and the GVFS path was used, the clone errors
out; otherwise the partial-clone configuration is unset
(`remote.origin.promisor`, `remote.origin.partialCloneFilter`, each a
`set_config` without a value) and the fetch is re-issued exactly once,
whose status becomes the block's result. -/
def clone_fetch_phase (w : CloneWorld) (gvfs showProgress : Bool) :
    Int × List CloneEv :=
  let fargs := fetchArgs showProgress
  let f1 := w.runGitRes fargs 0
  let tr := [CloneEv.runGit fargs f1]
  if f1 = 0 then (0, tr)
  else if gvfs then (-1, tr)
  else
    let u1 := "remote.origin.promisor"
    let u1ok := w.setConfigOk u1
    let tr := tr ++ [CloneEv.setConfig u1 u1ok]
    if !u1ok then (-1, tr)
    else
      let u2 := "remote.origin.partialCloneFilter"
      let u2ok := w.setConfigOk u2
      let tr := tr ++ [CloneEv.setConfig u2 u2ok]
      if !u2ok then (-1, tr)
      else
        let f2 := w.runGitRes fargs 1
        (f2, tr ++ [CloneEv.runGit fargs f2])

/-- Final phase of `cmd_clone` (scalar.c lines 909-921): branch
tracking configuration, forced checkout, registration. -/
def cmd_clone_finish (w : CloneWorld) (c : CloneCtx) :
    CloneOutcome × List CloneEv :=
  let b1 := "branch." ++ c.branch ++ ".remote=origin"
  let b1ok := w.setConfigOk b1
  let tr := [CloneEv.setConfig b1 b1ok]
  if !b1ok then (.ret (-1), tr)
  else
    let b2 := "branch." ++ c.branch ++ ".merge=refs/heads/" ++ c.branch
    let b2ok := w.setConfigOk b2
    let tr := tr ++ [CloneEv.setConfig b2 b2ok]
    if !b2ok then (.ret (-1), tr)
    else
      let coArgs := ["checkout", "-f", "-t", "origin/" ++ c.branch]
      let cres := w.runGitRes coArgs 0
      let tr := tr ++ [CloneEv.runGit coArgs cres]
      if cres ≠ 0 then (.ret cres, tr)
      else
        let rres := w.registerDirRes
        (.ret rres, tr ++ [CloneEv.registerDir rres])

/-- C `cmd_clone` (scalar.c lines 703-930), as the composition of its
phases. -/
def cmd_clone (w : CloneWorld) (o : CloneOpts) : CloneOutcome × List CloneEv :=
  match cmd_clone_setup w o with
  | (.inl out, tr) => (out, tr)
  | (.inr _, tr0) =>
    match cmd_clone_config w o with
    | (.inl out, tr1) => (out, tr0 ++ tr1)
    | (.inr ctx, tr1) =>
      let fp := clone_fetch_phase w ctx.gvfs w.isatty2
      let tr := tr0 ++ tr1 ++ fp.2
      if fp.1 ≠ 0 then (.ret fp.1, tr)
      else
        let fin := cmd_clone_finish w ctx
        (fin.1, tr ++ fin.2)

/-! ### Enlistment deletion (`cmd_delete`, scalar.c lines 1233-1264) -/

/-- One external effect issued by `cmd_delete`. -/
inductive DelEv where
  | toggleMaintenanceOff (res : Int)
  | unsetScalarRepo (res : Int)
  | stopFsmonitor (res : Int)
  | removeDir (path : String) (ok : Bool)
  deriving DecidableEq

/-- Oracles for `cmd_delete`: the working directory captured by
`xgetcwd()` at entry (before `setup_enlistment_directory` changes it),
whether `dir_inside_of(cwd, enlistment) >= 0`, and the outcomes of the
external calls `delete_enlistment` makes. -/
structure DeleteWorld where
  cwd : String
  dirInsideOf : String → String → Bool
  toggleMaintenanceRes : Int
  enlistmentRegistered : Bool
  unsetScalarRepoRes : Int
  fsmonitorSupported : Bool
  fsmonitorListening : Bool
  stopFsmonitorRes : Int
  removeDirOk : Bool

/-- C `unregister_dir` (scalar.c lines 327-338): turn off maintenance,
then remove the enlistment record (`add_or_remove_enlistment(0)`, which
unsets only when the record is present); `-1` when either step failed. -/
def unregister_dir (w : DeleteWorld) : Int × List DelEv :=
  let tr := [DelEv.toggleMaintenanceOff w.toggleMaintenanceRes]
  let res1 : Int := if w.toggleMaintenanceRes ≠ 0 then -1 else 0
  if w.enlistmentRegistered then
    let tr := tr ++ [DelEv.unsetScalarRepo w.unsetScalarRepoRes]
    (if w.unsetScalarRepoRes ≠ 0 then -1 else res1, tr)
  else (res1, tr)

/-- C `delete_enlistment` on a non-Windows build (scalar.c lines
621-656): unregister, stop the fsmonitor daemon when supported and
listening, then remove the enlistment directory recursively. -/
def delete_enlistment (w : DeleteWorld) (enlistment : String) : Int × List DelEv :=
  let u := unregister_dir w
  if u.1 ≠ 0 then (-1, u.2)
  else if w.fsmonitorSupported ∧ w.fsmonitorListening then
    let tr := u.2 ++ [DelEv.stopFsmonitor w.stopFsmonitorRes]
    if w.stopFsmonitorRes ≠ 0 then (-1, tr)
    else
      let tr := tr ++ [DelEv.removeDir enlistment w.removeDirOk]
      (if w.removeDirOk then 0 else -1, tr)
  else
    let tr := u.2 ++ [DelEv.removeDir enlistment w.removeDirOk]
    (if w.removeDirOk then 0 else -1, tr)

/-- C `cmd_delete` (scalar.c lines 1233-1264): after resolving the
enlistment root, refuse with an error — performing no effect at all —
when the invocation-time working directory lies inside (or equals) the
enlistment; otherwise delete it. -/
def cmd_delete (w : DeleteWorld) (enlistment : String) : Int × List DelEv :=
  if w.dirInsideOf w.cwd enlistment then (-1, [])
  else delete_enlistment w enlistment

/-! ## Supporting lemmas -/

theorem indexOf?_getD_eq {l : List String} {a : String} {i : Nat}
    (h : l.indexOf? a = some i) (d : String) : l.getD i d = a := by
  induction l generalizing i with
  | nil => simp at h
  | cons x xs ih =>
    rw [List.indexOf?_cons] at h
    by_cases hx : x == a
    · rw [if_pos hx] at h
      cases h
      simpa using (eq_of_beq hx)
    · rw [if_neg hx] at h
      obtain ⟨j, hj, rfl⟩ := Option.map_eq_some'.mp h
      simpa [List.getD] using ih hj

theorem indexOf?_isSome_of_mem {l : List String} {a : String}
    (h : a ∈ l) : (l.indexOf? a).isSome := by
  cases hi : l.indexOf? a with
  | some i => rfl
  | none =>
    exact absurd (List.indexOf?_eq_none_iff.mp hi a h) (by simp)

/-! ## Claim C3 -/

/-- Claim C3: for every pair of URLs that differ only in letter case,
when the remote-identity query is skipped or fails (the `vsts_identity`
branch yields no key), `get_cache_key` returns identical keys of the
form `url_<hex-digest-of-the-lowercased-URL>`; and whenever the
remote-identity query succeeds with identity `id`, the returned key is
`id_<id>` regardless of what the hash fallback would give. -/
theorem get_cache_key_case_stability
    (skip ah : Bool) (u1 u2 : String) (v1 v2 : VstsInfoResult)
    (hs : HashAlgoState) (hex : String → String → String) :
    (vsts_identity skip ah u1 v1 = none →
     vsts_identity skip ah u2 v2 = none →
     strLower u1 = strLower u2 →
     get_cache_key skip ah u1 v1 hs hex = get_cache_key skip ah u2 v2 hs hex ∧
     get_cache_key skip ah u1 v1 hs hex =
       "url_" ++ hex (scalar_hash_algo hs) (strLower u1)) ∧
    (∀ id, skip = false → can_url_support_gvfs u1 ah = true →
     v1 = some (some (some id)) →
     ∀ hex' : String → String → String,
       get_cache_key skip ah u1 v1 hs hex' = "id_" ++ id) := by
  constructor
  · intro h1 h2 hcase
    unfold get_cache_key
    rw [h1, h2, hcase]
    exact ⟨rfl, rfl⟩
  · intro id hskip hcan hv hex'
    simp [get_cache_key, vsts_identity, hskip, hcan, hv]

/-- Witness for C3 at concrete inputs: two case-variant URLs with the
identity query disabled hash to the same key, and a successful identity
query yields the `id_` key. -/
theorem get_cache_key_case_stability_witness :
    (get_cache_key true false "https://Example.com/Repo" none
        ⟨["sha1"], "sha1"⟩ (fun _ s => s) =
      get_cache_key true false "https://example.com/repo" none
        ⟨["sha1"], "sha1"⟩ (fun _ s => s) ∧
     get_cache_key true false "https://Example.com/Repo" none
        ⟨["sha1"], "sha1"⟩ (fun _ s => s) =
      "url_" ++ (fun (_ s : String) => s) (scalar_hash_algo ⟨["sha1"], "sha1"⟩)
        (strLower "https://Example.com/Repo")) ∧
    get_cache_key false false "https://x" (some (some (some "abc")))
        ⟨["sha1"], "sha1"⟩ (fun _ _ => "zzz") = "id_abc" := by
  constructor
  · exact (get_cache_key_case_stability true false "https://Example.com/Repo"
      "https://example.com/repo" none none ⟨["sha1"], "sha1"⟩ (fun _ s => s)).1
      (by decide) (by decide) (by decide)
  · exact (get_cache_key_case_stability false false "https://x" "" (some (some (some "abc")))
      none ⟨["sha1"], "sha1"⟩ (fun _ _ => "")).2 "abc" rfl (by decide) rfl (fun _ _ => "zzz")

/-! ## Claim C5 -/

/-- Counterexample to claim C5 as stated: with both `sha1` and the
stronger `sha256` registered and the repository itself on `sha256`
(so the strongest-available algorithm is `sha256`), the hash-fallback
branch still selects `sha1` — the named algorithm `sha1` is the primary
choice, not the strongest-available one, and `the_hash_algo` (not a
named default) is the fallback. -/
theorem scalar_hash_algo_not_strongest :
    scalar_hash_algo ⟨["sha1", "sha256"], "sha256"⟩ = "sha1" ∧
    strongest_available ⟨["sha1", "sha256"], "sha256"⟩ = some "sha256" ∧
    ("sha1" : String) ≠ "sha256" := by
  refine ⟨by decide, by decide, by decide⟩

/-- Claim C5, amended: in the hash-fallback branch of `get_cache_key`,
the digest over the lowercased URL bytes is computed with the algorithm
looked up by the name `sha1`, and the repository's current algorithm
(`the_hash_algo`) is used only as a fallback when `sha1` is not
registered. -/
theorem scalar_hash_algo_selection
    (hs : HashAlgoState) (skip ah : Bool) (url : String)
    (v : VstsInfoResult) (hex : String → String → String) :
    ("sha1" ∈ hs.hash_algos → scalar_hash_algo hs = "sha1") ∧
    ("sha1" ∉ hs.hash_algos → scalar_hash_algo hs = hs.the_hash_algo) ∧
    (vsts_identity skip ah url v = none →
      get_cache_key skip ah url v hs hex =
        "url_" ++ hex (scalar_hash_algo hs) (strLower url)) := by
  refine ⟨?_, ?_, ?_⟩
  · intro hmem
    have hsome := indexOf?_isSome_of_mem hmem
    obtain ⟨i, hi⟩ := Option.isSome_iff_exists.mp hsome
    unfold scalar_hash_algo hash_algo_by_name
    rw [hi]
    have : ¬ ((i : Int) < 0) := by
      simp
    rw [if_neg this]
    simpa using indexOf?_getD_eq hi hs.the_hash_algo
  · intro hnot
    have hnone : hs.hash_algos.indexOf? "sha1" = none := by
      rw [List.indexOf?_eq_none_iff]
      intro x hx
      simp only [beq_iff_eq]
      intro hxe
      exact hnot (hxe ▸ hx)
    unfold scalar_hash_algo hash_algo_by_name
    rw [hnone]
    norm_num
  · intro hnone
    unfold get_cache_key
    rw [hnone]

/-- Witness for the amended C5 at concrete inputs. -/
theorem scalar_hash_algo_selection_witness :
    scalar_hash_algo ⟨["sha1", "sha256"], "sha256"⟩ = "sha1" ∧
    scalar_hash_algo ⟨["sha256"], "sha256"⟩ = "sha256" ∧
    get_cache_key true false "https://A" none ⟨["sha256"], "sha256"⟩
        (fun a s => a ++ "|" ++ s) =
      "url_" ++ (fun (a s : String) => a ++ "|" ++ s)
        (scalar_hash_algo ⟨["sha256"], "sha256"⟩) (strLower "https://A") := by
  refine ⟨?_, ?_, ?_⟩
  · exact (scalar_hash_algo_selection ⟨["sha1", "sha256"], "sha256"⟩ true false "" none
      (fun _ _ => "")).1 (by decide)
  · exact (scalar_hash_algo_selection ⟨["sha256"], "sha256"⟩ true false "" none
      (fun _ _ => "")).2.1 (by decide)
  · exact (scalar_hash_algo_selection ⟨["sha256"], "sha256"⟩ true false "https://A" none
      (fun a s => a ++ "|" ++ s)).2.2 (by decide)

/-! ## Claim C10 -/

/-- Claim C10: `scalar delete` fails with an error and removes nothing
when the current working directory at invocation time is equal to or
inside the enlistment to be deleted (`dir_inside_of(cwd, enlistment)
>= 0`); the trace is empty, so the registration and the on-disk content
are untouched. -/
theorem cmd_delete_refuses_inside_cwd
    (w : DeleteWorld) (enlistment : String)
    (h : w.dirInsideOf w.cwd enlistment = true) :
    cmd_delete w enlistment = (-1, []) := by
  unfold cmd_delete
  rw [h]
  simp

/-- Witness for C10 at a concrete world. -/
theorem cmd_delete_refuses_inside_cwd_witness :
    cmd_delete
      { cwd := "/home/u/enl/src/sub", dirInsideOf := fun _ _ => true,
        toggleMaintenanceRes := 0, enlistmentRegistered := true,
        unsetScalarRepoRes := 0, fsmonitorSupported := false,
        fsmonitorListening := false, stopFsmonitorRes := 0,
        removeDirOk := true } "/home/u/enl" = (-1, []) :=
  cmd_delete_refuses_inside_cwd _ "/home/u/enl" rfl

/-! ## Claim C9 -/

/-- Claim C9: when the helper's config query succeeds but no
`.CacheServers[N].GlobalDefault` token in the document is boolean-true,
negotiation still selects index 0 (the `l` variable is initialized to
zero and never written) and returns the string at
`.CacheServers[0].Url` as the default cache-server URL. -/
theorem gvfs_negotiation_defaults_to_index_zero
    (ts : List JToken) (url : String) (ah : Bool)
    (hcan : can_url_support_gvfs url ah = true)
    (hnone : ∀ t ∈ ts, gd_index_match t = none) :
    get_cache_server_index_run ts = 0 ∧
    supports_gvfs_protocol url ah (some (some ts)) false =
      (1, get_cache_server_url_run ts ".CacheServers[0].Url", []) := by
  have hidx : get_cache_server_index_run ts = 0 := by
    unfold get_cache_server_index_run
    rw [List.findSome?_eq_none_iff.mpr hnone]
  refine ⟨hidx, ?_⟩
  unfold supports_gvfs_protocol
  rw [hcan]
  simp only [Bool.not_true, Bool.false_eq_true, if_false]
  rw [hidx]
  rfl

/-- Witness for C9: a document with one cache-server URL entry and a
boolean-false `GlobalDefault` selects index 0 and resolves its URL. -/
theorem gvfs_negotiation_defaults_to_index_zero_witness :
    get_cache_server_index_run
        [⟨JType.str, ".CacheServers[0].Url", "https://cache0"⟩,
         ⟨JType.boolFalse, ".CacheServers[0].GlobalDefault", ""⟩,
         ⟨JType.str, ".CacheServers[1].Url", "https://cache1"⟩] = 0 ∧
    supports_gvfs_protocol "https://example.com" false
        (some (some
          [⟨JType.str, ".CacheServers[0].Url", "https://cache0"⟩,
           ⟨JType.boolFalse, ".CacheServers[0].GlobalDefault", ""⟩,
           ⟨JType.str, ".CacheServers[1].Url", "https://cache1"⟩])) false =
      (1, get_cache_server_url_run
          [⟨JType.str, ".CacheServers[0].Url", "https://cache0"⟩,
           ⟨JType.boolFalse, ".CacheServers[0].GlobalDefault", ""⟩,
           ⟨JType.str, ".CacheServers[1].Url", "https://cache1"⟩]
          ".CacheServers[0].Url", []) :=
  gvfs_negotiation_defaults_to_index_zero _ "https://example.com" false
    (by decide) (by decide)

/-! ## Claim C7 -/

/-- Counterexample to claim C7 as stated: when the remote query
*succeeds* but reports a symbolic HEAD that is not under `refs/heads/`
(here `refs/tags/v1`), `remote_default_branch` errors out and returns
no branch immediately, even though the local fallback (here `main`)
would have succeeded — so it can fail without both the remote query and
the local fallback failing. -/
theorem remote_default_branch_not_branch_counterexample :
    remote_default_branch (some "ref: refs/tags/v1\tHEAD".data)
        (some "main".data) = none ∧
    remote_default_branch none (some "main".data) = some "main".data := by
  refine ⟨by decide, by decide⟩

/-- Claim C7, amended: `remote_default_branch` parses a response line
of the form `ref: refs/heads/<name>\tHEAD` into `<name>`; on failure of
the remote query (or when no line matches) it falls back, with a
warning, to the locally configured symbolic HEAD; it returns no branch
when both the remote query and the local fallback fail, and also — with
no local fallback — when the remote responds with a symbolic HEAD that
is not under `refs/heads/`. -/
theorem remote_default_branch_spec (symref : Option (List Char)) :
    (∀ name : List Char,
      parse_head_line ("ref: refs/heads/".data ++ name ++ "\tHEAD".data) =
        some (some name)) ∧
    (remote_default_branch none symref = symref.map trimCh) ∧
    (∀ out, scan_head_lines (splitLinesCh out) = none →
      remote_default_branch (some out) symref = symref.map trimCh) ∧
    (∀ out b, scan_head_lines (splitLinesCh out) = some (some b) →
      remote_default_branch (some out) symref = some b) ∧
    (∀ out, scan_head_lines (splitLinesCh out) = some none →
      remote_default_branch (some out) symref = none) := by
  have hpre : ∀ (p r : List Char), stripPrefixCh p (p ++ r) = some r := by
    intro p
    induction p with
    | nil => intro r; rfl
    | cons c cs ih => intro r; simp [stripPrefixCh, ih]
  have hsuf : ∀ (a s : List Char), stripSuffixCh (a ++ s) s = some a := by
    intro a s
    unfold stripSuffixCh
    rw [List.reverse_append, hpre]
    simp
  refine ⟨?_, ?_, ?_, ?_, ?_⟩
  · intro name
    unfold parse_head_line
    simp only [String.toList]
    have hline : "ref: refs/heads/".data ++ name ++ "\tHEAD".data =
        "ref: ".data ++ (("refs/heads/".data ++ name) ++ "\tHEAD".data) := by
      simp
    rw [hline, hpre]
    have hsplit : "ref: ".data ++ (("refs/heads/".data ++ name) ++ "\tHEAD".data) =
        ("ref: ".data ++ ("refs/heads/".data ++ name)) ++ "\tHEAD".data := by
      simp
    rw [hsplit, hsuf]
    have hdrop : ("ref: ".data ++ ("refs/heads/".data ++ name)).drop 5 =
        "refs/heads/".data ++ name := by
      have h5 : (5 : Nat) = ("ref: ".data).length := by decide
      rw [h5, List.drop_left]
    simp only [hdrop, hpre]
  · cases symref <;> rfl
  · intro out h
    simp only [remote_default_branch]
    rw [h]
    cases symref <;> rfl
  · intro out b h
    simp only [remote_default_branch]
    rw [h]
  · intro out h
    simp only [remote_default_branch]
    rw [h]

/-- Witness for the amended C7 at concrete inputs: a well-formed remote
response parses to its branch name, and a failed remote query falls
back to the trimmed local symbolic HEAD. -/
theorem remote_default_branch_spec_witness :
    parse_head_line ("ref: refs/heads/".data ++ "main".data ++ "\tHEAD".data) =
      some (some "main".data) ∧
    remote_default_branch none (some "main\n".data) =
      (some "main\n".data).map trimCh ∧
    remote_default_branch (some "garbage".data) (some "dev".data) =
      (some "dev".data).map trimCh := by
  refine ⟨(remote_default_branch_spec none).1 "main".data,
    (remote_default_branch_spec (some "main\n".data)).2.1,
    (remote_default_branch_spec (some "dev".data)).2.2.1 "garbage".data (by decide)⟩

/-! ## Claim C6 -/

theorem set_scalar_config_ne {k : String} {c : ScalarCfgEntry}
    (h : k ≠ c.key) (b : Bool) (s : Config) :
    set_scalar_config c b s k = s k := by
  unfold set_scalar_config
  split
  · simp [cfgSet, h]
  · rfl

theorem set_scalar_config_isSome {k : String} {c : ScalarCfgEntry}
    (b : Bool) (s : Config) (h : (s k).isSome) :
    ((set_scalar_config c b s) k).isSome := by
  unfold set_scalar_config
  split
  · by_cases hk : k = c.key <;> simp [cfgSet, hk, h]
  · exact h

theorem set_scalar_config_self_isSome (c : ScalarCfgEntry) (b : Bool) (s : Config) :
    ((set_scalar_config c b s) c.key).isSome := by
  unfold set_scalar_config
  split
  · simp [cfgSet]
  · rename_i hcond
    rw [Bool.or_eq_true] at hcond
    push_neg at hcond
    simpa [Option.isNone_iff_eq_none, Option.isSome_iff_ne_none] using hcond.2

theorem set_scalar_config_noop {c : ScalarCfgEntry} {s : Config}
    (h : (s c.key).isSome) : set_scalar_config c false s = s := by
  unfold set_scalar_config
  rw [if_neg]
  simp [Option.isNone_iff_eq_none, Option.isSome_iff_ne_none] at h ⊢
  exact h

theorem apply_config_table_ne {k : String} :
    ∀ (es : List ScalarCfgEntry) (b : Bool) (s : Config),
      (∀ c ∈ es, k ≠ c.key) → apply_config_table es b s k = s k := by
  intro es
  induction es with
  | nil => intro b s _; rfl
  | cons c cs ih =>
    intro b s h
    unfold apply_config_table
    rw [ih b _ (fun d hd => h d (List.mem_cons_of_mem c hd)),
      set_scalar_config_ne (h c (List.mem_cons_self c cs)) b s]

theorem apply_config_table_isSome {k : String} :
    ∀ (es : List ScalarCfgEntry) (b : Bool) (s : Config),
      (s k).isSome → ((apply_config_table es b s) k).isSome := by
  intro es
  induction es with
  | nil => intro b s h; exact h
  | cons c cs ih =>
    intro b s h
    exact ih b _ (set_scalar_config_isSome b s h)

theorem apply_config_table_mem_isSome {c : ScalarCfgEntry} :
    ∀ (es : List ScalarCfgEntry) (b : Bool) (s : Config), c ∈ es →
      ((apply_config_table es b s) c.key).isSome := by
  intro es
  induction es with
  | nil => intro b s h; simp at h
  | cons d ds ih =>
    intro b s h
    rcases List.mem_cons.mp h with h | h
    · subst h
      exact apply_config_table_isSome ds b _ (set_scalar_config_self_isSome c b s)
    · exact ih b _ h

theorem apply_config_table_noop :
    ∀ (es : List ScalarCfgEntry) (s : Config),
      (∀ c ∈ es, (s c.key).isSome) → apply_config_table es false s = s := by
  intro es
  induction es with
  | nil => intro s _; rfl
  | cons c cs ih =>
    intro s h
    unfold apply_config_table
    rw [set_scalar_config_noop (h c (List.mem_cons_self c cs))]
    exact ih s (fun d hd => h d (List.mem_cons_of_mem c hd))

theorem apply_config_table_bulk {c : ScalarCfgEntry} :
    ∀ (es : List ScalarCfgEntry) (s : Config),
      (es.map (fun e => e.key)).Nodup → c ∈ es →
      c.overwrite_on_reconfigure = true →
      (apply_config_table es true s) c.key = some c.value := by
  intro es
  induction es with
  | nil => intro s _ h _; simp at h
  | cons d ds ih =>
    intro s hnd h hov
    rw [List.map_cons, List.nodup_cons] at hnd
    rcases List.mem_cons.mp h with h | h
    · subst h
      unfold apply_config_table
      have hne : ∀ e ∈ ds, c.key ≠ e.key := by
        intro e he heq
        exact hnd.1 (heq ▸ List.mem_map_of_mem (fun x => x.key) he)
      rw [apply_config_table_ne ds true _ hne]
      unfold set_scalar_config
      rw [if_pos (by simp [hov])]
      simp [cfgSet]
    · exact ih _ hnd.2 h hov

theorem fsmonitor_migration_unsets (s : Config) :
    (fsmonitor_migration s) "core.usebuiltinfsmonitor" = none := by
  unfold fsmonitor_migration
  cases h : s "core.usebuiltinfsmonitor" with
  | none => exact h
  | some v => simp [cfgUnset]

theorem fsmonitor_migration_isSome {k : String} (s : Config)
    (hk : k ≠ "core.usebuiltinfsmonitor") (h : (s k).isSome) :
    ((fsmonitor_migration s) k).isSome := by
  unfold fsmonitor_migration
  cases hm : s "core.usebuiltinfsmonitor" with
  | none => exact h
  | some v =>
    simp only [cfgUnset, if_neg hk]
    split
    · by_cases hf : k = "core.fsmonitor" <;> simp [cfgSet, hf, h]
    · exact h

theorem apply_fsmonitor_config_ne {k : String} (support b : Bool) (s : Config)
    (h : k ≠ "core.fsmonitor") :
    (apply_fsmonitor_config support b s) k = s k := by
  unfold apply_fsmonitor_config
  split
  · exact set_scalar_config_ne h b s
  · rfl

theorem apply_fsmonitor_config_isSome {k : String} (support b : Bool) (s : Config)
    (h : (s k).isSome) : ((apply_fsmonitor_config support b s) k).isSome := by
  unfold apply_fsmonitor_config
  split
  · exact set_scalar_config_isSome b s h
  · exact h

theorem apply_exclude_decoration_ne {k : String} (s : Config)
    (h : k ≠ "log.excludeDecoration") :
    (apply_exclude_decoration s) k = s k := by
  unfold apply_exclude_decoration
  split
  · simp [cfgSet, h]
  · rfl

theorem apply_exclude_decoration_isSome {k : String} (s : Config)
    (h : (s k).isSome) : ((apply_exclude_decoration s) k).isSome := by
  unfold apply_exclude_decoration
  split
  · by_cases hk : k = "log.excludeDecoration" <;> simp [cfgSet, hk, h]
  · exact h

theorem apply_exclude_decoration_self_isSome (s : Config) :
    ((apply_exclude_decoration s) "log.excludeDecoration").isSome := by
  unfold apply_exclude_decoration
  split
  · simp [cfgSet]
  · rename_i h
    simpa [Option.isNone_iff_eq_none, Option.isSome_iff_ne_none] using h

theorem apply_exclude_decoration_noop {s : Config}
    (h : (s "log.excludeDecoration").isSome) : apply_exclude_decoration s = s := by
  unfold apply_exclude_decoration
  rw [if_neg]
  simp [Option.isNone_iff_eq_none, Option.isSome_iff_ne_none] at h ⊢
  exact h

theorem table_key_not_usebuiltin :
    ∀ c ∈ scalar_config_table, c.key ≠ "core.usebuiltinfsmonitor" := by
  decide

theorem table_key_not_fsmonitor :
    ∀ c ∈ scalar_config_table, c.key ≠ "core.fsmonitor" := by
  decide

theorem table_key_not_decoration :
    ∀ c ∈ scalar_config_table, c.key ≠ "log.excludeDecoration" := by
  decide

theorem table_keys_nodup :
    (scalar_config_table.map (fun e => e.key)).Nodup := by
  decide

/-- Claim C6: for every starting configuration state, running
`set_recommended_config` twice in first-time mode (`reconfigure = 0`)
produces the same final configuration as running it once; and a single
run in bulk mode (`reconfigure = 1`) sets every table entry with
`overwrite_on_reconfigure = 1` to its desired value regardless of the
prior value of that key. -/
theorem set_recommended_config_idempotent_and_bulk
    (support : Bool) (s : Config) :
    set_recommended_config false support
        (set_recommended_config false support s) =
      set_recommended_config false support s ∧
    (∀ c ∈ scalar_config_table, c.overwrite_on_reconfigure = true →
      (set_recommended_config true support s) c.key = some c.value) := by
  constructor
  · set s1 := set_recommended_config false support s with hs1
    have h0 : s1 "core.usebuiltinfsmonitor" = none := by
      rw [hs1]
      unfold set_recommended_config
      rw [apply_exclude_decoration_ne _ (by decide),
        apply_fsmonitor_config_ne _ _ _ (by decide),
        apply_config_table_ne _ _ _
          (fun c hc => (table_key_not_usebuiltin c hc).symm)]
      exact fsmonitor_migration_unsets s
    have h1 : ∀ c ∈ scalar_config_table, (s1 c.key).isSome := by
      intro c hc
      rw [hs1]
      unfold set_recommended_config
      exact apply_exclude_decoration_isSome _
        (apply_fsmonitor_config_isSome _ _ _
          (apply_config_table_mem_isSome _ _ _ hc))
    have h2 : support = true → (s1 "core.fsmonitor").isSome := by
      intro hsup
      rw [hs1]
      unfold set_recommended_config apply_fsmonitor_config
      rw [hsup]
      simp only [if_true]
      exact apply_exclude_decoration_isSome _
        (set_scalar_config_self_isSome ⟨"core.fsmonitor", "true", false⟩ false _)
    have h3 : (s1 "log.excludeDecoration").isSome := by
      rw [hs1]
      unfold set_recommended_config
      exact apply_exclude_decoration_self_isSome _
    conv_lhs => unfold set_recommended_config
    have hm : fsmonitor_migration s1 = s1 := by
      unfold fsmonitor_migration
      rw [h0]
    rw [hm, apply_config_table_noop _ _ h1]
    have hf : apply_fsmonitor_config support false s1 = s1 := by
      unfold apply_fsmonitor_config
      cases hsup : support with
      | false => rfl
      | true =>
        simp only [if_true]
        exact set_scalar_config_noop (h2 hsup)
    rw [hf, apply_exclude_decoration_noop h3]
  · intro c hc hov
    unfold set_recommended_config
    rw [apply_exclude_decoration_ne _ (table_key_not_decoration c hc),
      apply_fsmonitor_config_ne _ _ _ (table_key_not_fsmonitor c hc)]
    exact apply_config_table_bulk _ _ table_keys_nodup hc hov

/-- Witness for C6 at a concrete configuration: starting from the empty
configuration, a second first-time run changes nothing, and a bulk run
forces the first required entry. -/
theorem set_recommended_config_idempotent_and_bulk_witness :
    set_recommended_config false false
        (set_recommended_config false false (fun _ => none)) =
      set_recommended_config false false (fun _ => none) ∧
    (set_recommended_config true false (fun _ => some "preexisting"))
        "am.keepCR" = some "true" := by
  refine ⟨(set_recommended_config_idempotent_and_bulk false (fun _ => none)).1, ?_⟩
  exact (set_recommended_config_idempotent_and_bulk false
      (fun _ => some "preexisting")).2
    ⟨"am.keepCR", "true", true⟩ (by decide) rfl

/-! ## Claim C2 -/

theorem reconfigure_item_warns_on_failure (w : EnlistmentWorld)
    (h : (reconfigure_item w).succeeded = false) :
    (reconfigure_item w).warnedUnregister = true := by
  unfold reconfigure_item at h ⊢
  cases hc : w.chdirRes
  case ok =>
    cases hd : w.discover <;> simp_all
  case failENOENT =>
    by_cases hr : remove_deleted_enlistment w = 0 <;> simp [hr, hc] at h ⊢
  case failOther => rfl

/-- Claim C2: `cmd_reconfigure --all` attempts every registered
enlistment (one result per item, in order); a `chdir` failure with
`ENOENT` whose stale-record removal succeeds counts as handled (not a
failure) and removes the stale `scalar.repo` and `maintenance.repo`
records; every failed item gets the manual-unregistration warning and
never aborts the loop; and the aggregate result is `-1` exactly when at
least one item failed, `0` otherwise. -/
theorem cmd_reconfigure_all_isolation (ws : List EnlistmentWorld) :
    (cmd_reconfigure_all ws).2 = ws.map reconfigure_item ∧
    (cmd_reconfigure_all ws).2.length = ws.length ∧
    ((cmd_reconfigure_all ws).1 = -1 ↔
      ∃ it ∈ (cmd_reconfigure_all ws).2, it.succeeded = false) ∧
    ((cmd_reconfigure_all ws).1 = 0 ∨ (cmd_reconfigure_all ws).1 = -1) ∧
    (∀ w ∈ ws, w.chdirRes = ChdirRes.failENOENT →
      remove_deleted_enlistment w = 0 →
      (reconfigure_item w).succeeded = true ∧
      (reconfigure_item w).removedStale = true) ∧
    (∀ it ∈ (cmd_reconfigure_all ws).2, it.succeeded = false →
      it.warnedUnregister = true) := by
  refine ⟨rfl, by simp [cmd_reconfigure_all], ?_, ?_, ?_, ?_⟩
  · unfold cmd_reconfigure_all
    simp only []
    constructor
    · intro h
      by_cases hany : (ws.map reconfigure_item).any (fun r => !r.succeeded)
      · obtain ⟨it, hit, hfail⟩ := List.any_eq_true.mp hany
        exact ⟨it, hit, by simpa using hfail⟩
      · rw [if_neg hany] at h
        cases h
    · rintro ⟨it, hit, hfail⟩
      rw [if_pos (List.any_eq_true.mpr ⟨it, hit, by simp [hfail]⟩)]
  · dsimp only [cmd_reconfigure_all]
    split
    · right; rfl
    · left; rfl
  · intro w _ hen hrm
    unfold reconfigure_item
    rw [hen, if_pos hrm]
    exact ⟨rfl, rfl⟩
  · intro it hit hfail
    obtain ⟨w, _, rfl⟩ := List.mem_map.mp hit
    exact reconfigure_item_warns_on_failure w hfail

/-- Witness for C2: three enlistments — the second with a missing
directory whose stale records are removed — give two successes, one
self-healed item, and aggregate success; adding a genuinely failing
item flips the aggregate to `-1` with the unregistration warning. -/
theorem cmd_reconfigure_all_isolation_witness :
    (cmd_reconfigure_all
      [⟨"/a", ChdirRes.ok, 0, 0, DiscoverRes.discovered, 0, 0⟩,
       ⟨"/b", ChdirRes.failENOENT, 0, 0, DiscoverRes.notFound, 0, 0⟩,
       ⟨"/c", ChdirRes.ok, 0, 0, DiscoverRes.discovered, 0, 0⟩]).1 = 0 ∧
    (reconfigure_item ⟨"/b", ChdirRes.failENOENT, 0, 0,
        DiscoverRes.notFound, 0, 0⟩).succeeded = true ∧
    (reconfigure_item ⟨"/b", ChdirRes.failENOENT, 0, 0,
        DiscoverRes.notFound, 0, 0⟩).removedStale = true ∧
    (cmd_reconfigure_all
      [⟨"/a", ChdirRes.ok, 0, 0, DiscoverRes.discovered, 0, 0⟩,
       ⟨"/b", ChdirRes.failOther, 0, 0, DiscoverRes.notFound, 0, 0⟩]).1 = -1 ∧
    (reconfigure_item
        ⟨"/b", ChdirRes.failOther, 0, 0, DiscoverRes.notFound, 0, 0⟩).warnedUnregister
      = true := by
  have h1 := (cmd_reconfigure_all_isolation
    [⟨"/a", ChdirRes.ok, 0, 0, DiscoverRes.discovered, 0, 0⟩,
     ⟨"/b", ChdirRes.failENOENT, 0, 0, DiscoverRes.notFound, 0, 0⟩,
     ⟨"/c", ChdirRes.ok, 0, 0, DiscoverRes.discovered, 0, 0⟩]).2.2.2.2.1
    ⟨"/b", ChdirRes.failENOENT, 0, 0, DiscoverRes.notFound, 0, 0⟩
    (by decide) rfl (by decide)
  have h2 := (cmd_reconfigure_all_isolation
    [⟨"/a", ChdirRes.ok, 0, 0, DiscoverRes.discovered, 0, 0⟩,
     ⟨"/b", ChdirRes.failOther, 0, 0, DiscoverRes.notFound, 0, 0⟩]).2.2.2.2.2
    (reconfigure_item ⟨"/b", ChdirRes.failOther, 0, 0, DiscoverRes.notFound, 0, 0⟩)
    (by decide) (by decide)
  exact ⟨by decide, h1.1, h1.2, by decide, h2⟩

/-! ## Claim C1 -/

/-- Claim C1: in `cmd_clone`, if the initial fetch fails and the
accelerated (GVFS) path was not used, the clone unsets
`remote.origin.promisor` and `remote.origin.partialCloneFilter` and
retries the fetch exactly once as a full fetch (two fetch invocations
in total, the block's result being the retry's status); if the
accelerated path was used, any fetch failure makes the whole clone fail
with result `-1` and no fallback retry (a single fetch invocation and
no configuration unsets). -/
theorem clone_fetch_fallback (w : CloneWorld) (gvfs sp : Bool) :
    (w.runGitRes (fetchArgs sp) 0 ≠ 0 → gvfs = true →
      clone_fetch_phase w gvfs sp =
        (-1, [CloneEv.runGit (fetchArgs sp) (w.runGitRes (fetchArgs sp) 0)]) ∧
      fetchCount (clone_fetch_phase w gvfs sp).2 = 1) ∧
    (w.runGitRes (fetchArgs sp) 0 ≠ 0 → gvfs = false →
      w.setConfigOk "remote.origin.promisor" = true →
      w.setConfigOk "remote.origin.partialCloneFilter" = true →
      clone_fetch_phase w gvfs sp =
        (w.runGitRes (fetchArgs sp) 1,
         [CloneEv.runGit (fetchArgs sp) (w.runGitRes (fetchArgs sp) 0),
          CloneEv.setConfig "remote.origin.promisor" true,
          CloneEv.setConfig "remote.origin.partialCloneFilter" true,
          CloneEv.runGit (fetchArgs sp) (w.runGitRes (fetchArgs sp) 1)]) ∧
      fetchCount (clone_fetch_phase w gvfs sp).2 = 2) ∧
    (∀ (o : CloneOpts) (st : CloneSetup) (ctx : CloneCtx)
       (tr0 tr1 : List CloneEv),
      cmd_clone_setup w o = (Sum.inr st, tr0) →
      cmd_clone_config w o = (Sum.inr ctx, tr1) →
      ctx.gvfs = true → w.isatty2 = sp →
      w.runGitRes (fetchArgs sp) 0 ≠ 0 →
      cmd_clone w o =
        (CloneOutcome.ret (-1), tr0 ++ tr1 ++
          [CloneEv.runGit (fetchArgs sp) (w.runGitRes (fetchArgs sp) 0)])) := by
  have hA : w.runGitRes (fetchArgs sp) 0 ≠ 0 →
      clone_fetch_phase w true sp =
        (-1, [CloneEv.runGit (fetchArgs sp) (w.runGitRes (fetchArgs sp) 0)]) := by
    intro hf
    unfold clone_fetch_phase
    simp [hf]
  refine ⟨?_, ?_, ?_⟩
  · intro hf hg
    subst hg
    rw [hA hf]
    exact ⟨rfl, by simp [fetchCount, fetchArgs]⟩
  · intro hf hg h1 h2
    subst hg
    have he : clone_fetch_phase w false sp =
        (w.runGitRes (fetchArgs sp) 1,
         [CloneEv.runGit (fetchArgs sp) (w.runGitRes (fetchArgs sp) 0),
          CloneEv.setConfig "remote.origin.promisor" true,
          CloneEv.setConfig "remote.origin.partialCloneFilter" true,
          CloneEv.runGit (fetchArgs sp) (w.runGitRes (fetchArgs sp) 1)]) := by
      unfold clone_fetch_phase
      simp [hf, h1, h2]
    rw [he]
    exact ⟨rfl, by simp [fetchCount, fetchArgs]⟩
  · intro o st ctx tr0 tr1 hsetup hconfig hg hsp hf
    unfold cmd_clone
    rw [hsetup, hconfig]
    dsimp only
    rw [hg, hsp, hA hf]
    simp

/-- Witness for C1: a world whose fetch always fails on the first
attempt and succeeds on the retry exercises both the GVFS-fatal branch
and the one-retry fallback branch, and a full concrete clone on the
accelerated path fails as a whole. -/
theorem clone_fetch_fallback_witness :
    (clone_fetch_phase
      { runGitRes := fun a occ =>
          if a.head? = some "fetch" then (if occ = 0 then 1 else 0) else 0,
        setConfigOk := fun _ => true, chdirOk := fun _ => true,
        isDirectory := fun _ => false, ensureAbs := fun s => s,
        defaultCacheRoot := fun _ => some "/cache",
        dirInsideOf := fun _ _ => false, removeDirOk := fun _ => true,
        remoteDefaultBranch := some "main", repoDefaultBranchName := "master",
        allowHttpEnv := false, gvfsConfigPipe := none,
        initSharedCacheOk := true, setRecommendedOk := true,
        isatty2 := false, registerDirRes := 0 } true false) =
      (-1, [CloneEv.runGit (fetchArgs false) 1]) ∧
    (clone_fetch_phase
      { runGitRes := fun a occ =>
          if a.head? = some "fetch" then (if occ = 0 then 1 else 0) else 0,
        setConfigOk := fun _ => true, chdirOk := fun _ => true,
        isDirectory := fun _ => false, ensureAbs := fun s => s,
        defaultCacheRoot := fun _ => some "/cache",
        dirInsideOf := fun _ _ => false, removeDirOk := fun _ => true,
        remoteDefaultBranch := some "main", repoDefaultBranchName := "master",
        allowHttpEnv := false, gvfsConfigPipe := none,
        initSharedCacheOk := true, setRecommendedOk := true,
        isatty2 := false, registerDirRes := 0 } false false) =
      (0, [CloneEv.runGit (fetchArgs false) 1,
           CloneEv.setConfig "remote.origin.promisor" true,
           CloneEv.setConfig "remote.origin.partialCloneFilter" true,
           CloneEv.runGit (fetchArgs false) 0]) ∧
    (cmd_clone
      { runGitRes := fun a _ => if a.head? = some "fetch" then 1 else 0,
        setConfigOk := fun _ => true, chdirOk := fun _ => true,
        isDirectory := fun _ => false, ensureAbs := fun s => s,
        defaultCacheRoot := fun _ => some "/cache",
        dirInsideOf := fun _ _ => false, removeDirOk := fun _ => true,
        remoteDefaultBranch := some "main", repoDefaultBranchName := "master",
        allowHttpEnv := false, gvfsConfigPipe := none,
        initSharedCacheOk := true, setRecommendedOk := true,
        isatty2 := false, registerDirRes := 0 }
      { url := "https://example.com/repo", enlistmentArg := some "repo",
        branch := some "main", fullClone := true, singleBranch := false,
        src := true, cacheServerUrl := some "https://cache",
        localCachePath := some "/cache2" }).1 = CloneOutcome.ret (-1) := by
  refine ⟨?_, ?_, ?_⟩
  · have h := (clone_fetch_fallback
      { runGitRes := fun a occ =>
          if a.head? = some "fetch" then (if occ = 0 then 1 else 0) else 0,
        setConfigOk := fun _ => true, chdirOk := fun _ => true,
        isDirectory := fun _ => false, ensureAbs := fun s => s,
        defaultCacheRoot := fun _ => some "/cache",
        dirInsideOf := fun _ _ => false, removeDirOk := fun _ => true,
        remoteDefaultBranch := some "main", repoDefaultBranchName := "master",
        allowHttpEnv := false, gvfsConfigPipe := none,
        initSharedCacheOk := true, setRecommendedOk := true,
        isatty2 := false, registerDirRes := 0 } true false).1
      (by decide) rfl
    simpa using h.1
  · have h := (clone_fetch_fallback
      { runGitRes := fun a occ =>
          if a.head? = some "fetch" then (if occ = 0 then 1 else 0) else 0,
        setConfigOk := fun _ => true, chdirOk := fun _ => true,
        isDirectory := fun _ => false, ensureAbs := fun s => s,
        defaultCacheRoot := fun _ => some "/cache",
        dirInsideOf := fun _ _ => false, removeDirOk := fun _ => true,
        remoteDefaultBranch := some "main", repoDefaultBranchName := "master",
        allowHttpEnv := false, gvfsConfigPipe := none,
        initSharedCacheOk := true, setRecommendedOk := true,
        isatty2 := false, registerDirRes := 0 } false false).2.1
      (by decide) rfl rfl rfl
    simpa using h.1
  · have h := (clone_fetch_fallback
      { runGitRes := fun a _ => if a.head? = some "fetch" then 1 else 0,
        setConfigOk := fun _ => true, chdirOk := fun _ => true,
        isDirectory := fun _ => false, ensureAbs := fun s => s,
        defaultCacheRoot := fun _ => some "/cache",
        dirInsideOf := fun _ _ => false, removeDirOk := fun _ => true,
        remoteDefaultBranch := some "main", repoDefaultBranchName := "master",
        allowHttpEnv := false, gvfsConfigPipe := none,
        initSharedCacheOk := true, setRecommendedOk := true,
        isatty2 := false, registerDirRes := 0 } false false).2.2
      { url := "https://example.com/repo", enlistmentArg := some "repo",
        branch := some "main", fullClone := true, singleBranch := false,
        src := true, cacheServerUrl := some "https://cache",
        localCachePath := some "/cache2" }
      ⟨"repo", "repo/src", "/cache2"⟩ ⟨"main", true⟩
      [CloneEv.runGit ["-c", "init.defaultBranch=main", "init", "--", "repo/src"] 0,
       CloneEv.chdirTo "repo/src" true]
      [CloneEv.setConfig "remote.origin.url=https://example.com/repo" true,
       CloneEv.setConfig
         "remote.origin.fetch=+refs/heads/*:refs/remotes/origin/*" true,
       CloneEv.setConfig "credential.https://dev.azure.com.useHttpPath=true" true,
       CloneEv.initSharedCache true,
       CloneEv.setConfig "core.useGVFSHelper=true" true,
       CloneEv.setConfig "core.gvfs=150" true,
       CloneEv.setConfig "http.version=HTTP/1.1" true,
       CloneEv.setConfig "gvfs.cache-server=https://cache" true,
       CloneEv.setRecommended true]
      (by decide) (by decide) rfl rfl (by decide)
    rw [h]

/-! ## Claim C8 -/

/-- Claim C8: for every clone invocation that reaches the cache-root
check (the enlistment name resolved, `git init` and the `chdir`
succeeded) with the resolved local cache root equal to or nested inside
the new working tree (`dir_inside_of(local_cache_root, dir) >= 0`), the
clone dies before any fetch is issued — the trace carries no fetch
invocation — and the partially created enlistment directory is removed
as part of this failure. -/
theorem clone_cache_nesting_guard
    (w : CloneWorld) (o : CloneOpts) (e p enlistment dir lcr bname : String)
    (h1 : o.enlistmentArg = some e)
    (h2 : w.isDirectory e = false)
    (h3 : o.localCachePath = some p)
    (he : enlistment = w.ensureAbs e)
    (hd : dir = (if o.src then enlistment ++ "/src" else enlistment))
    (hl : lcr = w.ensureAbs p)
    (hb : bname = (match o.branch with
      | some b => b
      | none => w.repoDefaultBranchName))
    (hinit : w.runGitRes (cloneInitArgs bname dir) 0 = 0)
    (hch : w.chdirOk dir = true)
    (hnest : w.dirInsideOf lcr dir = true)
    (hup : w.chdirOk "../.." = true)
    (hrm : w.removeDirOk enlistment = true) :
    cmd_clone w o =
      (CloneOutcome.died "local-cache-path inside src",
       [CloneEv.runGit (cloneInitArgs bname dir) 0,
        CloneEv.chdirTo dir true,
        CloneEv.removeDir enlistment true]) ∧
    fetchCount (cmd_clone w o).2 = 0 ∧
    CloneEv.removeDir enlistment true ∈ (cmd_clone w o).2 := by
  subst he hd hl hb
  have hsetup : cmd_clone_setup w o =
      (Sum.inl (CloneOutcome.died "local-cache-path inside src"),
       [CloneEv.runGit
          (cloneInitArgs
            (match o.branch with
             | some b => b
             | none => w.repoDefaultBranchName)
            (if o.src then w.ensureAbs e ++ "/src" else w.ensureAbs e)) 0,
        CloneEv.chdirTo
          (if o.src then w.ensureAbs e ++ "/src" else w.ensureAbs e) true,
        CloneEv.removeDir (w.ensureAbs e) true]) := by
    unfold cmd_clone_setup
    rw [h1]
    simp only [h2, h3, Bool.false_eq_true, if_false]
    rw [hinit]
    simp only [ne_eq, not_true_eq_false, reduceIte, hch]
    rw [hnest]
    simp [hup, hrm]
  have hclone : cmd_clone w o =
      (CloneOutcome.died "local-cache-path inside src",
       [CloneEv.runGit
          (cloneInitArgs
            (match o.branch with
             | some b => b
             | none => w.repoDefaultBranchName)
            (if o.src then w.ensureAbs e ++ "/src" else w.ensureAbs e)) 0,
        CloneEv.chdirTo
          (if o.src then w.ensureAbs e ++ "/src" else w.ensureAbs e) true,
        CloneEv.removeDir (w.ensureAbs e) true]) := by
    unfold cmd_clone
    rw [hsetup]
  refine ⟨hclone, ?_, ?_⟩
  · rw [hclone]
    simp [fetchCount, cloneInitArgs]
  · rw [hclone]
    simp

/-- Witness for C8 at a fully concrete world: the local cache root
`/enl/src/cache` lies inside the working tree `/enl/src`, the clone
dies with the enlistment removed and no fetch was issued. -/
theorem clone_cache_nesting_guard_witness :
    cmd_clone
      { runGitRes := fun _ _ => 0, setConfigOk := fun _ => true,
        chdirOk := fun _ => true, isDirectory := fun _ => false,
        ensureAbs := fun s => "/" ++ s,
        defaultCacheRoot := fun _ => some "/cache",
        dirInsideOf := fun _ _ => true, removeDirOk := fun _ => true,
        remoteDefaultBranch := some "main", repoDefaultBranchName := "master",
        allowHttpEnv := false, gvfsConfigPipe := none,
        initSharedCacheOk := true, setRecommendedOk := true,
        isatty2 := false, registerDirRes := 0 }
      { url := "https://example.com/enl", enlistmentArg := some "enl",
        branch := some "main", fullClone := false, singleBranch := false,
        src := true, cacheServerUrl := none,
        localCachePath := some "enl/src/cache" } =
      (CloneOutcome.died "local-cache-path inside src",
       [CloneEv.runGit (cloneInitArgs "main" "/enl/src") 0,
        CloneEv.chdirTo "/enl/src" true,
        CloneEv.removeDir "/enl" true]) := by
  exact (clone_cache_nesting_guard
    { runGitRes := fun _ _ => 0, setConfigOk := fun _ => true,
      chdirOk := fun _ => true, isDirectory := fun _ => false,
      ensureAbs := fun s => "/" ++ s,
      defaultCacheRoot := fun _ => some "/cache",
      dirInsideOf := fun _ _ => true, removeDirOk := fun _ => true,
      remoteDefaultBranch := some "main", repoDefaultBranchName := "master",
      allowHttpEnv := false, gvfsConfigPipe := none,
      initSharedCacheOk := true, setRecommendedOk := true,
      isatty2 := false, registerDirRes := 0 }
    { url := "https://example.com/enl", enlistmentArg := some "enl",
      branch := some "main", fullClone := false, singleBranch := false,
      src := true, cacheServerUrl := none,
      localCachePath := some "enl/src/cache" }
    "enl" "enl/src/cache" "/enl" "/enl/src" "/enl/src/cache" "main"
    rfl rfl rfl rfl (by decide) rfl rfl rfl rfl rfl rfl rfl).1

/-! ## Claim C4 -/

/-- Counterexample to claim C4 as stated: during clone negotiation
(caller did not ask for a listing), a malformed JSON response makes
`supports_gvfs_protocol` return `error(...) = -1`; `cmd_clone` only
tests that return for being nonzero, so the clone proceeds on the
*accelerated* path (`core.useGVFSHelper=true` is configured, the
partial-clone `core.useGVFSHelper=false` configuration never happens) —
not on the non-accelerated path the claim describes. -/
theorem gvfs_parse_error_counterexample :
    supports_gvfs_protocol "https://example.com" false (some none) false =
      (-1, none, []) ∧
    ((cmd_clone
      { runGitRes := fun _ _ => 0, setConfigOk := fun _ => true,
        chdirOk := fun _ => true, isDirectory := fun _ => false,
        ensureAbs := fun s => s, defaultCacheRoot := fun _ => some "/cache",
        dirInsideOf := fun _ _ => false, removeDirOk := fun _ => true,
        remoteDefaultBranch := some "main", repoDefaultBranchName := "master",
        allowHttpEnv := false, gvfsConfigPipe := some none,
        initSharedCacheOk := true, setRecommendedOk := true,
        isatty2 := false, registerDirRes := 0 }
      { url := "https://example.com", enlistmentArg := some "repo",
        branch := some "main", fullClone := true, singleBranch := false,
        src := true, cacheServerUrl := none,
        localCachePath := some "/cache" }).2.contains
        (CloneEv.setConfig "core.useGVFSHelper=true" true) = true) ∧
    ((cmd_clone
      { runGitRes := fun _ _ => 0, setConfigOk := fun _ => true,
        chdirOk := fun _ => true, isDirectory := fun _ => false,
        ensureAbs := fun s => s, defaultCacheRoot := fun _ => some "/cache",
        dirInsideOf := fun _ _ => false, removeDirOk := fun _ => true,
        remoteDefaultBranch := some "main", repoDefaultBranchName := "master",
        allowHttpEnv := false, gvfsConfigPipe := some none,
        initSharedCacheOk := true, setRecommendedOk := true,
        isatty2 := false, registerDirRes := 0 }
      { url := "https://example.com", enlistmentArg := some "repo",
        branch := some "main", fullClone := true, singleBranch := false,
        src := true, cacheServerUrl := none,
        localCachePath := some "/cache" }).2.contains
        (CloneEv.setConfig "core.useGVFSHelper=false" true) = false) := by
  refine ⟨by decide, by decide, by decide⟩

/-- Claim C4, amended: a malformed JSON response from the helper's
config query is surfaced as an error return (`-1`) from
`supports_gvfs_protocol` in both the negotiation and the explicit
listing modes; because `cmd_clone` only tests that result for being
nonzero, a clone whose negotiation hits a malformed document proceeds
on the accelerated (GVFS) path rather than degrading to the
non-accelerated path.  (A helper *invocation* failure during
negotiation, by contrast, quietly yields no acceleration.) -/
theorem gvfs_negotiation_parse_error_behavior
    (url : String) (ah : Bool) (hcan : can_url_support_gvfs url ah = true) :
    supports_gvfs_protocol url ah (some none) false = (-1, none, []) ∧
    supports_gvfs_protocol url ah (some none) true = (-1, none, []) ∧
    supports_gvfs_protocol url ah none false = (0, none, []) ∧
    clone_gvfs_decision none (-1) = true ∧
    (∀ (w : CloneWorld) (o : CloneOpts) (b : String),
      o.url = url → w.allowHttpEnv = ah → o.cacheServerUrl = none →
      w.gvfsConfigPipe = some none →
      o.branch = some b → o.singleBranch = false →
      w.setConfigOk ("remote.origin.url=" ++ url) = true →
      w.setConfigOk
        "remote.origin.fetch=+refs/heads/*:refs/remotes/origin/*" = true →
      w.setConfigOk "credential.https://dev.azure.com.useHttpPath=true" = true →
      w.initSharedCacheOk = true →
      w.setConfigOk "core.useGVFSHelper=true" = true →
      w.setConfigOk "core.gvfs=150" = true →
      w.setConfigOk "http.version=HTTP/1.1" = true →
      o.fullClone = true → w.setRecommendedOk = true →
      cmd_clone_config w o =
        (Sum.inr ⟨b, true⟩,
         [CloneEv.setConfig ("remote.origin.url=" ++ url) true,
          CloneEv.setConfig
            "remote.origin.fetch=+refs/heads/*:refs/remotes/origin/*" true,
          CloneEv.setConfig
            "credential.https://dev.azure.com.useHttpPath=true" true,
          CloneEv.negotiated (-1) none,
          CloneEv.initSharedCache true,
          CloneEv.setConfig "core.useGVFSHelper=true" true,
          CloneEv.setConfig "core.gvfs=150" true,
          CloneEv.setConfig "http.version=HTTP/1.1" true,
          CloneEv.setRecommended true])) := by
  have hneg : supports_gvfs_protocol url ah (some none) false = (-1, none, []) := by
    unfold supports_gvfs_protocol
    rw [hcan]
    rfl
  have hlist : supports_gvfs_protocol url ah (some none) true = (-1, none, []) := by
    unfold supports_gvfs_protocol
    rw [hcan]
    rfl
  have hquiet : supports_gvfs_protocol url ah none false = (0, none, []) := by
    unfold supports_gvfs_protocol
    rw [hcan]
    rfl
  refine ⟨hneg, hlist, hquiet, by decide, ?_⟩
  intro w o b hurl hah hcs hpipe hb hsb h1 h2 h3 hi hg1 hg2 hg3 hfc hrec
  unfold cmd_clone_config
  rw [hb]
  simp only [hurl, hah, hcs, hpipe, hsb, h1, h2, h3, hi, hg1, hg2, hg3, hfc,
    hrec, hneg, Option.isSome_none, Bool.false_eq_true, if_false,
    Bool.not_true, Bool.not_false, if_true]
  simp [clone_gvfs_decision, h1, h2, h3, hi, hg1, hg2, hg3, hrec, hfc]

/-- Witness for the amended C4 at concrete inputs. -/
theorem gvfs_negotiation_parse_error_behavior_witness :
    supports_gvfs_protocol "https://w.example" false (some none) false =
      (-1, none, []) ∧
    supports_gvfs_protocol "https://w.example" false (some none) true =
      (-1, none, []) ∧
    cmd_clone_config
      { runGitRes := fun _ _ => 0, setConfigOk := fun _ => true,
        chdirOk := fun _ => true, isDirectory := fun _ => false,
        ensureAbs := fun s => s, defaultCacheRoot := fun _ => some "/cache",
        dirInsideOf := fun _ _ => false, removeDirOk := fun _ => true,
        remoteDefaultBranch := some "main", repoDefaultBranchName := "master",
        allowHttpEnv := false, gvfsConfigPipe := some none,
        initSharedCacheOk := true, setRecommendedOk := true,
        isatty2 := false, registerDirRes := 0 }
      { url := "https://w.example", enlistmentArg := some "repo",
        branch := some "dev", fullClone := true, singleBranch := false,
        src := true, cacheServerUrl := none,
        localCachePath := some "/cache" } =
      (Sum.inr ⟨"dev", true⟩,
       [CloneEv.setConfig ("remote.origin.url=" ++ "https://w.example") true,
        CloneEv.setConfig
          "remote.origin.fetch=+refs/heads/*:refs/remotes/origin/*" true,
        CloneEv.setConfig
          "credential.https://dev.azure.com.useHttpPath=true" true,
        CloneEv.negotiated (-1) none,
        CloneEv.initSharedCache true,
        CloneEv.setConfig "core.useGVFSHelper=true" true,
        CloneEv.setConfig "core.gvfs=150" true,
        CloneEv.setConfig "http.version=HTTP/1.1" true,
        CloneEv.setRecommended true]) := by
  have h := gvfs_negotiation_parse_error_behavior "https://w.example" false (by decide)
  refine ⟨h.1, h.2.1, ?_⟩
  exact h.2.2.2.2
    { runGitRes := fun _ _ => 0, setConfigOk := fun _ => true,
      chdirOk := fun _ => true, isDirectory := fun _ => false,
      ensureAbs := fun s => s, defaultCacheRoot := fun _ => some "/cache",
      dirInsideOf := fun _ _ => false, removeDirOk := fun _ => true,
      remoteDefaultBranch := some "main", repoDefaultBranchName := "master",
      allowHttpEnv := false, gvfsConfigPipe := some none,
      initSharedCacheOk := true, setRecommendedOk := true,
      isatty2 := false, registerDirRes := 0 }
    { url := "https://w.example", enlistmentArg := some "repo",
      branch := some "dev", fullClone := true, singleBranch := false,
      src := true, cacheServerUrl := none,
      localCachePath := some "/cache" }
    "dev" rfl rfl rfl rfl rfl rfl rfl rfl rfl rfl rfl rfl rfl rfl rfl
